import Mathlib

/-!
Shallow embedding of the G-code interpreter in `virtual_printer.py` (and the
replay driver `run_gcode` of `resume_print.py`).  Python strings are Lean
`String`s manipulated through list-of-character helpers that mirror the exact
`str.split` / `str.strip` semantics used by the source; the mutable
`VirtualPrinter` object becomes an explicit `PrinterState` record threaded
through `Except`; Python exceptions become the `PError` type, and a raising
statement returns the state as it stands at that point (so partial mutation of
the caller's object is observable in the error payload, as it is in Python).
-/

namespace ResumePrint

/-- Split a character list at every occurrence of `sep`, keeping empty
segments, exactly like Python `str.split(sep)` for a one-character
separator (`"".split(" ") == [""]`, `"a  b".split(" ") == ["a","","b"]`). -/
def splitChars (sep : Char) : List Char → List (List Char)
  | [] => [[]]
  | c :: cs =>
    match splitChars sep cs with
    | [] => [[]]
    | seg :: segs => if c = sep then [] :: seg :: segs else (c :: seg) :: segs

/-- Python `s.split(sep)` for a one-character separator. -/
def pySplit (sep : Char) (s : String) : List String :=
  (splitChars sep s.data).map String.mk

/-- Python `s.strip()` (drop leading and trailing whitespace). -/
def pyStrip (s : String) : String :=
  String.mk (((s.data.dropWhile Char.isWhitespace).reverse.dropWhile Char.isWhitespace).reverse)

/-- Python `s.startswith(c)` for a one-character prefix. -/
def pyStartsWith (c : Char) (s : String) : Bool :=
  s.data.head? == some c

/-- Value of a list of decimal digit characters. -/
def digitsVal (cs : List Char) : Nat :=
  cs.foldl (fun acc c => 10 * acc + (c.toNat - 48)) 0

/-- Unsigned decimal literal: digits with an optional single point, at least
one digit overall. -/
def parseUnsigned (cs : List Char) : Option ℚ :=
  let intPart := cs.takeWhile Char.isDigit
  match cs.dropWhile Char.isDigit with
  | [] => if intPart.isEmpty then none else some (digitsVal intPart : ℚ)
  | '.' :: frac =>
    if frac.all Char.isDigit && !(intPart.isEmpty && frac.isEmpty) then
      some ((digitsVal intPart : ℚ) + (digitsVal frac : ℚ) / ((10 : ℚ) ^ frac.length))
    else none
  | _ => none

/-- Models Python's `float` constructor on the decimal literals this program
feeds it: optional sign, then digits with an optional single point.  (No
exponent or inf/nan forms occur in the sources.)  `none` models the
`ValueError` Python raises on a malformed literal. -/
def parseFloat (s : String) : Option ℚ :=
  match s.data with
  | '+' :: cs => parseUnsigned cs
  | '-' :: cs => (parseUnsigned cs).map (fun q => -q)
  | cs => parseUnsigned cs

/-- Declared parameter value types.  Every registration in the source passes
Python's `float`, so that is the only constructor. -/
inductive PType where
  | float
deriving DecidableEq

/-- `p.type(literal)` from `parse` line 47: convert a literal to the declared
type. -/
def PType.decode : PType → String → Option ℚ
  | .float, s => parseFloat s

/-- `Parameter` (virtual_printer.py lines 4-8): a parameter letter and its
value type. -/
structure Parameter where
  char : Char
  type : PType
deriving DecidableEq

/-- Failure outcomes observable from the Python code.  The source raises
`RuntimeError` with distinct messages for `unknownParam`, `missingParams`
and `unknownInstruction`; `typeErr` models the `TypeError` Python itself
raises when `None` is an operand of `+=`, `nameErr` the `UnboundLocalError`
from reading `p` before its first assignment (parse line 44), `valueErr` the
`ValueError` from `float` on a malformed literal, and `indexErr` the
`IndexError` from `arg[0]` on an empty token. -/
inductive PError where
  | indexErr
  | nameErr
  | typeErr
  | valueErr (lit : String)
  | unknownParam (cmd : String) (letter : Char)
  | missingParams (cmd : String) (missing : List Char)
  | unknownInstruction (cmd : String)
deriving DecidableEq

/-- The data fields of `VirtualPrinter` (virtual_printer.py lines 59-75).
`none` is Python `None` ("unknown"); numeric values are modelled as `ℚ`. -/
structure PrinterState where
  x : Option ℚ
  y : Option ℚ
  z : Option ℚ
  e : Option ℚ
  feed_rate : Option ℚ
  bed_temp : Option ℚ
  hotend_temp : Option ℚ
  fan_speed : Option ℚ
  ignore_unknown : Bool
  abs_mode : Bool
  abs_e_mode : Bool
deriving DecidableEq

/-- The parsed-parameter dict `d`, keyed by parameter letter. -/
abbrev Args := List (Char × ℚ)

/-- Result of a stateful step: either the new state, or the error together
with the state as already mutated when the exception was raised. -/
abbrev HandlerOut := Except (PError × PrinterState) PrinterState

abbrev Handler := PrinterState → Args → HandlerOut

/-- Python dict lookup on an association list. -/
def assocFind {κ α : Type} [DecidableEq κ] (k : κ) : List (κ × α) → Option α
  | [] => none
  | kv :: rest => if kv.1 = k then some kv.2 else assocFind k rest

/-- Python dict insert-or-overwrite on an association list. -/
def assocInsert {κ α : Type} [DecidableEq κ] (k : κ) (v : α) : List (κ × α) → List (κ × α)
  | [] => [(k, v)]
  | kv :: rest => if kv.1 = k then (k, v) :: rest else kv :: assocInsert k v rest

/-- `GCodeInstruction` (virtual_printer.py lines 11-18). -/
structure GCodeInstruction where
  cmd : String
  required_params : List Parameter
  optional_params : List Parameter
  func : Handler
  ignore_unknown : Bool

/-- Python dict insert-or-overwrite on a parameter dict keyed by `char`. -/
def paramInsert (ps : List Parameter) (p : Parameter) : List Parameter :=
  match ps with
  | [] => [p]
  | q :: rest => if q.char = p.char then p :: rest else q :: paramInsert rest p

/-- Parameter-dict lookup by letter. -/
def paramFind (c : Char) : List Parameter → Option Parameter
  | [] => none
  | p :: rest => if p.char = c then some p else paramFind c rest

/-- The `params` property (lines 20-24): required updated with optional. -/
def GCodeInstruction.params (self : GCodeInstruction) : List Parameter :=
  self.optional_params.foldl paramInsert self.required_params

/-- Python set add on a list-as-set of characters. -/
def setAdd (s : List Char) (c : Char) : List Char :=
  if s.contains c then s else c :: s

/-- The token loop of `GCodeInstruction.parse` (lines 33-54).  The loop state
is the dict `d`, the seen-required set `required` and the loop variable `p`
(which starts unassigned, hence `Option Parameter`; reading it while `none`
is Python's `UnboundLocalError`, i.e. `nameErr`).  Note line 44 of the
source adds `p.char` — the letter of the parameter bound on a *previous*
iteration — not the current token's letter. -/
def parseArgs (self : GCodeInstruction) (cmd : String) :
    List String → Args → List Char → Option Parameter → Except PError Args
  | [], d, seen, _ =>
    let missing := (self.required_params.map Parameter.char).filter (fun c => !seen.contains c)
    if missing.isEmpty then Except.ok d else Except.error (PError.missingParams cmd missing)
  | arg :: rest, d, seen, p =>
    match arg.data.head? with
    | none => Except.error PError.indexErr
    | some letter =>
      match paramFind letter self.params with
      | none =>
        if self.ignore_unknown then parseArgs self cmd rest d seen p
        else Except.error (PError.unknownParam cmd letter)
      | some q =>
        match
          (if (self.required_params.map Parameter.char).contains letter then
            match p with
            | none => Except.error PError.nameErr
            | some prev => Except.ok (setAdd seen prev.char)
          else Except.ok seen : Except PError (List Char))
        with
        | Except.error err => Except.error err
        | Except.ok seen2 =>
          match q.type.decode (String.mk arg.data.tail) with
          | none => Except.error (PError.valueErr (String.mk arg.data.tail))
          | some v => parseArgs self cmd rest (assocInsert q.char v d) seen2 (some q)

/-- `GCodeInstruction.parse` (lines 30-54). -/
def GCodeInstruction.parse (self : GCodeInstruction) (gcode : String) : Except PError Args :=
  match pySplit ' ' gcode with
  | [] => Except.error PError.indexErr
  | cmd :: args => parseArgs self cmd args [] [] none

/-- The instruction registry `instruction_set`, a dict keyed by command code. -/
abbrev InstrSet := List (String × GCodeInstruction)

/-- `VirtualPrinter.process_line` (lines 83-99). -/
def process_line (instrs : InstrSet) (printer : PrinterState) (gcode : String) : HandlerOut :=
  if pyStartsWith ';' gcode then Except.ok printer
  else
    let cleaned := pyStrip ((pySplit ';' gcode).headD "")
    let cmd := (pySplit ' ' cleaned).headD ""
    match assocFind cmd instrs with
    | none =>
      if printer.ignore_unknown then Except.ok printer
      else Except.error (PError.unknownInstruction cmd, printer)
    | some instr =>
      match instr.parse cleaned with
      | Except.error err => Except.error (err, printer)
      | Except.ok args => instr.func printer args

/-- `args.get(k, dflt)` where the default is a possibly-`None` field. -/
def argGet (args : Args) (k : Char) (dflt : Option ℚ) : Option ℚ :=
  match assocFind k args with
  | some v => some v
  | none => dflt

/-- `args.get(k, 0)`-style access with a numeric default. -/
def argGetD (args : Args) (k : Char) (dflt : ℚ) : ℚ :=
  (assocFind k args).getD dflt

/-- `g28` (lines 105-108). -/
def g28 : Handler := fun printer _ =>
  Except.ok { printer with x := some 0, y := some 0, z := some 0 }

/-- `g0` (lines 111-127), statement by statement.  In the relative branches a
`None` coordinate makes `+=` raise `TypeError` at that statement, with the
fields assigned by earlier statements already mutated. -/
def g0 : Handler := fun printer args =>
  let posStep : HandlerOut :=
    if printer.abs_mode then
      Except.ok { printer with
        x := argGet args 'X' printer.x,
        y := argGet args 'Y' printer.y,
        z := argGet args 'Z' printer.z }
    else
      match printer.x with
      | none => Except.error (PError.typeErr, printer)
      | some xv =>
        let p1 := { printer with x := some (xv + argGetD args 'X' 0) }
        match p1.y with
        | none => Except.error (PError.typeErr, p1)
        | some yv =>
          let p2 := { p1 with y := some (yv + argGetD args 'Y' 0) }
          match p2.z with
          | none => Except.error (PError.typeErr, p2)
          | some zv => Except.ok { p2 with z := some (zv + argGetD args 'Z' 0) }
  match posStep with
  | Except.error err => Except.error err
  | Except.ok q =>
    let eStep : HandlerOut :=
      if q.abs_e_mode then Except.ok { q with e := argGet args 'E' q.e }
      else
        match q.e with
        | none => Except.error (PError.typeErr, q)
        | some ev => Except.ok { q with e := some (ev + argGetD args 'E' 0) }
    match eStep with
    | Except.error err => Except.error err
    | Except.ok r => Except.ok { r with feed_rate := argGet args 'F' r.feed_rate }

/-- `m104` (lines 130-131); also registered for M109. -/
def m104 : Handler := fun printer args =>
  Except.ok { printer with hotend_temp := argGet args 'S' printer.hotend_temp }

/-- `m140` (lines 134-135); also registered for M190. -/
def m140 : Handler := fun printer args =>
  Except.ok { printer with bed_temp := argGet args 'S' printer.bed_temp }

/-- `g90` (lines 138-140). -/
def g90 : Handler := fun printer _ =>
  Except.ok { printer with abs_mode := true, abs_e_mode := true }

/-- `g91` (lines 143-145). -/
def g91 : Handler := fun printer _ =>
  Except.ok { printer with abs_mode := false, abs_e_mode := false }

/-- `g92` (lines 148-152). -/
def g92 : Handler := fun printer args =>
  Except.ok { printer with
    x := argGet args 'X' printer.x,
    y := argGet args 'Y' printer.y,
    z := argGet args 'Z' printer.z,
    e := argGet args 'E' printer.e }

/-- `m82` (lines 155-156). -/
def m82 : Handler := fun printer _ => Except.ok { printer with abs_e_mode := true }

/-- `m83` (lines 159-160). -/
def m83 : Handler := fun printer _ => Except.ok { printer with abs_e_mode := false }

/-- `m106` (lines 163-164). -/
def m106 : Handler := fun printer args =>
  Except.ok { printer with fan_speed := argGet args 'S' printer.fan_speed }

/-- `VirtualPrinter.__init__` (lines 59-75) as a function of its arguments.
Lines 72-73 assign the literal `True` to both modal flags, so the `abs_mode`
argument is never read. -/
def virtualPrinterInit (x y z e bed_temp hotend_temp fan_speed feed_rate : Option ℚ)
    (ignore_unknown abs_mode : Bool) : PrinterState :=
  { x := x, y := y, z := z, e := e, feed_rate := feed_rate, bed_temp := bed_temp,
    hotend_temp := hotend_temp, fan_speed := fan_speed,
    ignore_unknown := ignore_unknown, abs_mode := true, abs_e_mode := true }

/-- `VirtualPrinter.register_gcode` (lines 77-81).  The source's
`ignore_unknown` default is `True`; every call below passes it explicitly. -/
def register_gcode (instrs : InstrSet) (cmd : String)
    (required optional : List (Char × PType)) (func : Handler)
    (ignore_unknown : Bool) : InstrSet :=
  assocInsert cmd
    { cmd := cmd,
      required_params := required.map (fun pr => { char := pr.1, type := pr.2 }),
      optional_params := optional.map (fun pr => { char := pr.1, type := pr.2 }),
      func := func, ignore_unknown := ignore_unknown } instrs

/-- `VirtualPrinter()` with all defaults, as built by `create_printer`. -/
def initialPrinter : PrinterState :=
  virtualPrinterInit none none none none none none none none true true

/-- The thirteen registrations of `create_printer` (lines 167-188), in source
order.  Note `G1` is registered without an `F` optional parameter. -/
def createInstrs : InstrSet :=
  let i := register_gcode [] "G28" [] [] g28 true
  let i := register_gcode i "G0"
    [] [('X', .float), ('Y', .float), ('Z', .float), ('E', .float), ('F', .float)] g0 true
  let i := register_gcode i "G1"
    [] [('X', .float), ('Y', .float), ('Z', .float), ('E', .float)] g0 true
  let i := register_gcode i "M104" [] [('S', .float)] m104 true
  let i := register_gcode i "M109" [] [('S', .float)] m104 true
  let i := register_gcode i "M140" [] [('S', .float)] m140 true
  let i := register_gcode i "M190" [] [('S', .float)] m140 true
  let i := register_gcode i "M106" [] [('S', .float)] m106 true
  let i := register_gcode i "G90" [] [] g90 true
  let i := register_gcode i "G91" [] [] g91 true
  let i := register_gcode i "M82" [] [] m82 true
  let i := register_gcode i "M83" [] [] m83 true
  register_gcode i "G92" [] [('X', .float), ('Y', .float), ('Z', .float), ('E', .float)] g92 true

/-- `create_printer` (lines 167-188): the fresh state and the registry. -/
def create_printer : PrinterState × InstrSet := (initialPrinter, createInstrs)

/-- `run_gcode` (resume_print.py lines 60-62): process lines in order,
stopping at the first failure. -/
def run_gcode (instrs : InstrSet) : PrinterState → List String → HandlerOut
  | printer, [] => Except.ok printer
  | printer, line :: rest =>
    match process_line instrs printer line with
    | Except.error err => Except.error err
    | Except.ok next => run_gcode instrs next rest

/-- A handler that does nothing, for exercising the parser on registrations
whose handler is irrelevant (parsing never reaches the handler). -/
def dummyHandler : Handler := fun printer _ => Except.ok printer

/-- The instruction value that `create_printer` registers under `"G92"`. -/
def g92Instr : GCodeInstruction :=
  { cmd := "G92",
    required_params := [],
    optional_params :=
      [⟨'X', .float⟩, ⟨'Y', .float⟩, ⟨'Z', .float⟩, ⟨'E', .float⟩],
    func := g92, ignore_unknown := true }

/-- C1: the spec requires a relative-mode G0/G1 that targets an unknown
(absent) coordinate to fail with an `InvalidStateError` naming the
coordinate.  The code instead lets Python raise a bare `TypeError` from
`None += float` (modelled as `PError.typeErr`), which carries no coordinate
name — and no `InvalidStateError` exists anywhere in the code. -/
theorem relative_move_on_unknown_axis_raises_bare_type_error :
    run_gcode createInstrs initialPrinter ["G91", "G1 X5"] =
      Except.error (PError.typeErr,
        { initialPrinter with abs_mode := false, abs_e_mode := false }) := by
  with_unfolding_all rfl

/-- C2: the spec requires that a failed line leaves the state exactly as it
was.  After homing (x=y=z=0) and switching to relative mode, the line
"G1 X5" updates x to 5, then fails with a `TypeError` on the extruder axis
(e is still unknown in relative extrusion mode): the state carried out by
the failure differs from the state before the line, so mutation is not
atomic per line. -/
theorem failed_relative_move_leaves_state_mutated :
    run_gcode createInstrs initialPrinter ["G28", "G91"] =
      Except.ok { initialPrinter with
        x := some 0, y := some 0, z := some 0, abs_mode := false, abs_e_mode := false } ∧
    process_line createInstrs
      { initialPrinter with
        x := some 0, y := some 0, z := some 0, abs_mode := false, abs_e_mode := false }
      "G1 X5" =
      Except.error (PError.typeErr,
        { initialPrinter with
          x := some 5, y := some 0, z := some 0, abs_mode := false, abs_e_mode := false }) ∧
    ({ initialPrinter with
        x := some 5, y := some 0, z := some 0, abs_mode := false, abs_e_mode := false }
      : PrinterState) ≠
    { initialPrinter with
        x := some 0, y := some 0, z := some 0, abs_mode := false, abs_e_mode := false } := by
  refine ⟨by with_unfolding_all rfl, by with_unfolding_all rfl, ?_⟩
  with_unfolding_all decide

/-- C3: the spec says F overwrites the feed rate for both G0 and G1, but
`create_printer` registers G1 without the F optional parameter, so an F
token on a G1 line is silently skipped (the instruction's unknown-parameter
policy is ignore) and the feed rate is left unchanged; the same line under
G0 does overwrite it. -/
theorem g1_line_ignores_f_parameter :
    process_line createInstrs initialPrinter "G1 F500" = Except.ok initialPrinter ∧
    process_line createInstrs initialPrinter "G0 F500" =
      Except.ok { initialPrinter with feed_rate := some 500 } :=
  ⟨by with_unfolding_all rfl, by with_unfolding_all rfl⟩

/-- C4: the spec says that for a registered command, a line with all required
parameters present (well-formed, no unknown letters) parses successfully.
For a command registered with required parameter X, the line "T1 X5"
instead crashes: `parse` line 44 reads the loop variable `p` before its
first assignment, raising `UnboundLocalError` (modelled as
`PError.nameErr`). -/
theorem parse_crashes_on_present_required_parameter :
    process_line (register_gcode [] "T1" [('X', PType.float)] [] dummyHandler true)
      initialPrinter "T1 X5" = Except.error (PError.nameErr, initialPrinter) := by
  with_unfolding_all rfl

/-- C5: the spec says a line missing a required letter fails with a
`MissingParameterError` carrying exactly the missing letters.  With
required X and Y, the line "T2 X1" (Y missing) instead crashes with
`UnboundLocalError` on the first required token; and with required X,Y and
optional F, the line "T3 F3 X1" (only Y missing) raises the missing-
parameter error but misreports the set as X and Y both missing, because
line 44 adds the previous token's letter (F) instead of the current one (X). -/
theorem missing_required_letters_misreported :
    process_line (register_gcode [] "T2" [('X', PType.float), ('Y', PType.float)] []
        dummyHandler true)
      initialPrinter "T2 X1" = Except.error (PError.nameErr, initialPrinter) ∧
    process_line (register_gcode [] "T3" [('X', PType.float), ('Y', PType.float)]
        [('F', PType.float)] dummyHandler true)
      initialPrinter "T3 F3 X1" =
      Except.error (PError.missingParams "T3" ['X', 'Y'], initialPrinter) :=
  ⟨by with_unfolding_all rfl, by with_unfolding_all rfl⟩

/-- C6 counterexample: the claim says blank and comment-only lines are
no-ops regardless of the unknown-command policy.  Under the fail policy
(`ignore_unknown = false`) a blank line reduces to the empty command token,
which is not registered, so `process_line` raises "unknown instruction"
instead of succeeding. -/
theorem blank_line_fails_under_strict_unknown_policy :
    process_line createInstrs { initialPrinter with ignore_unknown := false } "" =
      Except.error (PError.unknownInstruction "",
        { initialPrinter with ignore_unknown := false }) := by
  with_unfolding_all rfl

/-- Helper: `splitChars` always yields at least one segment. -/
theorem splitChars_ne_nil (sep : Char) (cs : List Char) : splitChars sep cs ≠ [] := by
  induction cs with
  | nil => simp [splitChars]
  | cons c cs ih =>
    simp only [splitChars]
    cases h : splitChars sep cs with
    | nil => simp
    | cons seg segs =>
      by_cases hc : c = sep
      · simp [hc]
      · simp [hc]

/-- Helper: the first segment of `splitChars` is the prefix before the first
separator. -/
theorem splitChars_headD (sep : Char) (cs : List Char) :
    (splitChars sep cs).headD [] = cs.takeWhile (fun c => !(c == sep)) := by
  induction cs with
  | nil => rfl
  | cons c cs ih =>
    simp only [splitChars]
    cases h : splitChars sep cs with
    | nil => exact absurd h (splitChars_ne_nil sep cs)
    | cons seg segs =>
      rw [h] at ih
      simp only [List.headD_cons] at ih
      by_cases hc : c = sep
      · simp [List.takeWhile_cons, hc]
      · simp [List.takeWhile_cons, hc, ih]

/-- Helper: when the cleaned text of a non-raw-comment line is empty, the
command token is the empty string, which is not registered, so the outcome
is decided by the printer's unknown-command policy. -/
theorem process_line_cleaned_empty (s : PrinterState) (line : String)
    (hstart : pyStartsWith ';' line = false)
    (hclean : pyStrip ((pySplit ';' line).headD "") = "") :
    process_line createInstrs s line =
      if s.ignore_unknown then Except.ok s
      else Except.error (PError.unknownInstruction "", s) := by
  unfold process_line
  rw [hstart, hclean]
  with_unfolding_all rfl

/-- C6 amended: for every state and every line whose characters before the
first comment marker are all whitespace — i.e. blank lines, whitespace-only
lines, raw comment lines and comment lines with leading whitespace — the
state is left unchanged; the call succeeds when the raw line starts with
the comment marker (in every state) or when the unknown-command policy is
ignore, and otherwise fails with an unknown-instruction error for the empty
command token, still leaving the state unchanged. -/
theorem blank_and_comment_lines_are_noops (s : PrinterState) (line : String)
    (h : ∀ c ∈ line.data.takeWhile (fun c => !(c == ';')), c.isWhitespace = true) :
    process_line createInstrs s line =
      if pyStartsWith ';' line || s.ignore_unknown then Except.ok s
      else Except.error (PError.unknownInstruction "", s) := by
  cases hstart : pyStartsWith ';' line with
  | true =>
    unfold process_line
    rw [hstart]
    simp
  | false =>
    have hmap : (pySplit ';' line).headD "" =
        String.mk (line.data.takeWhile (fun c => !(c == ';'))) := by
      unfold pySplit
      cases hsp : splitChars ';' line.data with
      | nil => exact absurd hsp (splitChars_ne_nil ';' line.data)
      | cons seg segs =>
        have hh := splitChars_headD ';' line.data
        rw [hsp] at hh
        simp only [List.headD_cons] at hh
        simp [hh]
    have hd : (line.data.takeWhile (fun c => !(c == ';'))).dropWhile Char.isWhitespace
        = [] := List.dropWhile_eq_nil_iff.mpr h
    have hclean : pyStrip ((pySplit ';' line).headD "") = "" := by
      rw [hmap]
      show String.mk ((((line.data.takeWhile (fun c => !(c == ';'))).dropWhile
        Char.isWhitespace).reverse.dropWhile Char.isWhitespace).reverse) = ""
      rw [hd]
      rfl
    rw [process_line_cleaned_empty s line hstart hclean]
    simp

/-- Witness for the amended C6: an indented comment line is a no-op at the
fresh ignore-policy state, and a whitespace-only line at a fail-policy
state takes the unknown-instruction branch with the state unchanged. -/
theorem blank_and_comment_lines_are_noops_witness :
    (∀ c ∈ ("  ; indented comment".data.takeWhile (fun c => !(c == ';'))),
      c.isWhitespace = true) ∧
    process_line createInstrs initialPrinter "  ; indented comment" =
      (if pyStartsWith ';' "  ; indented comment" || initialPrinter.ignore_unknown then
        Except.ok initialPrinter
      else Except.error (PError.unknownInstruction "", initialPrinter)) ∧
    (∀ c ∈ ("   ".data.takeWhile (fun c => !(c == ';'))), c.isWhitespace = true) ∧
    process_line createInstrs { initialPrinter with ignore_unknown := false } "   " =
      (if pyStartsWith ';' "   " ||
          ({ initialPrinter with ignore_unknown := false } : PrinterState).ignore_unknown then
        Except.ok { initialPrinter with ignore_unknown := false }
      else Except.error (PError.unknownInstruction "",
        { initialPrinter with ignore_unknown := false })) :=
  ⟨by decide,
    blank_and_comment_lines_are_noops initialPrinter "  ; indented comment" (by decide),
    by decide,
    blank_and_comment_lines_are_noops { initialPrinter with ignore_unknown := false }
      "   " (by decide)⟩

/-- C7: processing "G28" from any prior state sets x, y, z to 0 and leaves
e, temperatures, fan speed, feed rate and both modal flags unchanged. -/
theorem g28_homes_axes_only (s : PrinterState) :
    process_line createInstrs s "G28" =
      Except.ok { s with x := some 0, y := some 0, z := some 0 } := by
  with_unfolding_all rfl

/-- C8: for any state and any successfully processed G92 line (no leading
comment marker, command token G92, parameters parsing to `args`), every
coordinate among X, Y, Z, E present in the line is overwritten with exactly
the decoded literal value, every absent coordinate is unchanged, and all
remaining fields — including both modal flags, which the handler neither
reads nor writes — are unchanged. -/
theorem g92_overwrites_each_present_coordinate
    (s s2 : PrinterState) (line : String) (args : Args)
    (hc : pyStartsWith ';' line = false)
    (hcmd : (pySplit ' ' (pyStrip ((pySplit ';' line).headD ""))).headD "" = "G92")
    (hparse : g92Instr.parse (pyStrip ((pySplit ';' line).headD "")) = Except.ok args)
    (hrun : process_line createInstrs s line = Except.ok s2) :
    (∀ v, assocFind 'X' args = some v → s2.x = some v) ∧
    (assocFind 'X' args = none → s2.x = s.x) ∧
    (∀ v, assocFind 'Y' args = some v → s2.y = some v) ∧
    (assocFind 'Y' args = none → s2.y = s.y) ∧
    (∀ v, assocFind 'Z' args = some v → s2.z = some v) ∧
    (assocFind 'Z' args = none → s2.z = s.z) ∧
    (∀ v, assocFind 'E' args = some v → s2.e = some v) ∧
    (assocFind 'E' args = none → s2.e = s.e) ∧
    s2.feed_rate = s.feed_rate ∧ s2.bed_temp = s.bed_temp ∧
    s2.hotend_temp = s.hotend_temp ∧ s2.fan_speed = s.fan_speed ∧
    s2.ignore_unknown = s.ignore_unknown ∧
    s2.abs_mode = s.abs_mode ∧ s2.abs_e_mode = s.abs_e_mode := by
  have hl : assocFind "G92" createInstrs = some g92Instr := rfl
  unfold process_line at hrun
  rw [hc] at hrun
  simp only [Bool.false_eq_true, if_false] at hrun
  rw [hcmd, hl] at hrun
  simp only [hparse] at hrun
  have hs2 : s2 = { s with
      x := argGet args 'X' s.x, y := argGet args 'Y' s.y,
      z := argGet args 'Z' s.z, e := argGet args 'E' s.e } := by
    have : g92Instr.func s args = Except.ok s2 := hrun
    simp only [g92Instr, g92] at this
    exact (Except.ok.inj this).symm
  subst hs2
  refine ⟨?_, ?_, ?_, ?_, ?_, ?_, ?_, ?_, rfl, rfl, rfl, rfl, rfl, rfl, rfl⟩ <;>
    first
      | (intro v hv; simp [argGet, hv])
      | (intro hn; simp [argGet, hn])

/-- Witness for C8: the line "G92 X2 E0" processed from a homed state in
relative modes sets x to 2 and e to 0, leaves y, z and everything else
unchanged, and leaves the relative modes in place. -/
theorem g92_overwrites_each_present_coordinate_witness :
    process_line createInstrs
        { initialPrinter with
            x := some 0, y := some 0, z := some 0,
            abs_mode := false, abs_e_mode := false }
        "G92 X2 E0" =
      Except.ok { initialPrinter with
          x := some 2, y := some 0, z := some 0, e := some 0,
          abs_mode := false, abs_e_mode := false } ∧
    ((∀ v, assocFind 'X' ([('X', 2), ('E', 0)] : Args) = some v →
        ({ initialPrinter with
            x := some 2, y := some 0, z := some 0, e := some 0,
            abs_mode := false, abs_e_mode := false } : PrinterState).x = some v) ∧
      (assocFind 'X' ([('X', 2), ('E', 0)] : Args) = none →
        ({ initialPrinter with
            x := some 2, y := some 0, z := some 0, e := some 0,
            abs_mode := false, abs_e_mode := false } : PrinterState).x =
        ({ initialPrinter with
            x := some 0, y := some 0, z := some 0,
            abs_mode := false, abs_e_mode := false } : PrinterState).x) ∧
      (∀ v, assocFind 'Y' ([('X', 2), ('E', 0)] : Args) = some v →
        ({ initialPrinter with
            x := some 2, y := some 0, z := some 0, e := some 0,
            abs_mode := false, abs_e_mode := false } : PrinterState).y = some v) ∧
      (assocFind 'Y' ([('X', 2), ('E', 0)] : Args) = none →
        ({ initialPrinter with
            x := some 2, y := some 0, z := some 0, e := some 0,
            abs_mode := false, abs_e_mode := false } : PrinterState).y =
        ({ initialPrinter with
            x := some 0, y := some 0, z := some 0,
            abs_mode := false, abs_e_mode := false } : PrinterState).y) ∧
      (∀ v, assocFind 'Z' ([('X', 2), ('E', 0)] : Args) = some v →
        ({ initialPrinter with
            x := some 2, y := some 0, z := some 0, e := some 0,
            abs_mode := false, abs_e_mode := false } : PrinterState).z = some v) ∧
      (assocFind 'Z' ([('X', 2), ('E', 0)] : Args) = none →
        ({ initialPrinter with
            x := some 2, y := some 0, z := some 0, e := some 0,
            abs_mode := false, abs_e_mode := false } : PrinterState).z =
        ({ initialPrinter with
            x := some 0, y := some 0, z := some 0,
            abs_mode := false, abs_e_mode := false } : PrinterState).z) ∧
      (∀ v, assocFind 'E' ([('X', 2), ('E', 0)] : Args) = some v →
        ({ initialPrinter with
            x := some 2, y := some 0, z := some 0, e := some 0,
            abs_mode := false, abs_e_mode := false } : PrinterState).e = some v) ∧
      (assocFind 'E' ([('X', 2), ('E', 0)] : Args) = none →
        ({ initialPrinter with
            x := some 2, y := some 0, z := some 0, e := some 0,
            abs_mode := false, abs_e_mode := false } : PrinterState).e =
        ({ initialPrinter with
            x := some 0, y := some 0, z := some 0,
            abs_mode := false, abs_e_mode := false } : PrinterState).e) ∧
      ({ initialPrinter with
          x := some 2, y := some 0, z := some 0, e := some 0,
          abs_mode := false, abs_e_mode := false } : PrinterState).feed_rate =
        ({ initialPrinter with
            x := some 0, y := some 0, z := some 0,
            abs_mode := false, abs_e_mode := false } : PrinterState).feed_rate ∧
      ({ initialPrinter with
          x := some 2, y := some 0, z := some 0, e := some 0,
          abs_mode := false, abs_e_mode := false } : PrinterState).bed_temp =
        ({ initialPrinter with
            x := some 0, y := some 0, z := some 0,
            abs_mode := false, abs_e_mode := false } : PrinterState).bed_temp ∧
      ({ initialPrinter with
          x := some 2, y := some 0, z := some 0, e := some 0,
          abs_mode := false, abs_e_mode := false } : PrinterState).hotend_temp =
        ({ initialPrinter with
            x := some 0, y := some 0, z := some 0,
            abs_mode := false, abs_e_mode := false } : PrinterState).hotend_temp ∧
      ({ initialPrinter with
          x := some 2, y := some 0, z := some 0, e := some 0,
          abs_mode := false, abs_e_mode := false } : PrinterState).fan_speed =
        ({ initialPrinter with
            x := some 0, y := some 0, z := some 0,
            abs_mode := false, abs_e_mode := false } : PrinterState).fan_speed ∧
      ({ initialPrinter with
          x := some 2, y := some 0, z := some 0, e := some 0,
          abs_mode := false, abs_e_mode := false } : PrinterState).ignore_unknown =
        ({ initialPrinter with
            x := some 0, y := some 0, z := some 0,
            abs_mode := false, abs_e_mode := false } : PrinterState).ignore_unknown ∧
      ({ initialPrinter with
          x := some 2, y := some 0, z := some 0, e := some 0,
          abs_mode := false, abs_e_mode := false } : PrinterState).abs_mode =
        ({ initialPrinter with
            x := some 0, y := some 0, z := some 0,
            abs_mode := false, abs_e_mode := false } : PrinterState).abs_mode ∧
      ({ initialPrinter with
          x := some 2, y := some 0, z := some 0, e := some 0,
          abs_mode := false, abs_e_mode := false } : PrinterState).abs_e_mode =
        ({ initialPrinter with
            x := some 0, y := some 0, z := some 0,
            abs_mode := false, abs_e_mode := false } : PrinterState).abs_e_mode) :=
  ⟨by with_unfolding_all rfl,
    g92_overwrites_each_present_coordinate
      { initialPrinter with
          x := some 0, y := some 0, z := some 0,
          abs_mode := false, abs_e_mode := false }
      { initialPrinter with
          x := some 2, y := some 0, z := some 0, e := some 0,
          abs_mode := false, abs_e_mode := false }
      "G92 X2 E0" [('X', 2), ('E', 0)]
      (by with_unfolding_all rfl) (by with_unfolding_all rfl)
      (by with_unfolding_all rfl) (by with_unfolding_all rfl)⟩

/-- C9: `run_gcode` is a pure function of the registry, the start state and
the line sequence, and `create_printer` always builds the same fresh state
and registry, so two replays of one sequence from freshly created states
can only reach equal final states. -/
theorem replay_from_fresh_state_deterministic
    (lines : List String) (s1 s2 : PrinterState)
    (h1 : run_gcode create_printer.2 create_printer.1 lines = Except.ok s1)
    (h2 : run_gcode create_printer.2 create_printer.1 lines = Except.ok s2) :
    s1 = s2 := by
  rw [h1] at h2
  injection h2

/-- Witness for C9 on the sequence ["G28"]. -/
theorem replay_from_fresh_state_deterministic_witness :
    run_gcode create_printer.2 create_printer.1 ["G28"] =
      Except.ok { initialPrinter with x := some 0, y := some 0, z := some 0 } ∧
    ({ initialPrinter with x := some 0, y := some 0, z := some 0 } : PrinterState) =
      { initialPrinter with x := some 0, y := some 0, z := some 0 } :=
  ⟨by with_unfolding_all rfl,
    replay_from_fresh_state_deterministic ["G28"] _ _
      (by with_unfolding_all rfl) (by with_unfolding_all rfl)⟩

/-- C10: `VirtualPrinter.__init__` assigns the literal `True` to both modal
flags, so whatever value is passed for the `abs_mode` argument, the fresh
state has both position and extrusion mode absolute. -/
theorem init_forces_absolute_modes
    (x y z e bt ht fs fr : Option ℚ) (iu am : Bool) :
    (virtualPrinterInit x y z e bt ht fs fr iu am).abs_mode = true ∧
    (virtualPrinterInit x y z e bt ht fs fr iu am).abs_e_mode = true :=
  ⟨rfl, rfl⟩

end ResumePrint
